import Mathlib

/-!
Verification of the gesture-to-MIDI mapping pipeline of `handler.py`.

The pipeline components (Normalizer, RateLimiter, GeometryEngine,
FeatureExtractor, the per-frame orchestration) are shallowly embedded below:
pure Python functions become Lean functions, Python floats become exact
rationals (for the rate gate and normalizer, where the code only compares and
does field arithmetic) or reals (for the geometry, which uses `sqrt` and
`atan2`), the Python `dict` of fingertip coordinates becomes a record, and the
one fallible operation (`ZeroDivisionError` in `normalize_to_cc` when
`max_d == min_d`) becomes an `Option` result.
-/

namespace Gesture

/-! ## Configuration constants (handler.py lines 16-26) -/

def MIDI_CHANNEL : ℕ := 0

def CC_LEFT_HAND : ℕ := 20

def CC_RIGHT_HAND : ℕ := 21

def CC_THUMB_TO_THUMB : ℕ := 22

def CC_INDEX_TO_INDEX : ℕ := 23

def MIN_DIST_PX : ℕ := 20

def MAX_DIST_PX : ℕ := 400

/-! ## Normalizer (handler.py lines 45-53, `normalize_to_cc`) -/

/-- Python `int(x)` on a float: truncation toward zero. -/
def pyInt {α : Type} [LinearOrderedField α] [FloorRing α] (x : α) : ℤ :=
  if 0 ≤ x then ⌊x⌋ else ⌈x⌉

/-- The clamp `d = max(min_d, min(max_d, dist_px))` of handler.py line 51. -/
def clampDist {α : Type} [LinearOrderedField α] (dist_px min_d max_d : α) : α :=
  max min_d (min max_d dist_px)

/-- Function `normalize_to_cc(dist_px, min_d, max_d)` from handler.py lines 45-53:
`d = max(min_d, min(max_d, dist_px))`, `norm = (d - min_d) / (max_d - min_d)`,
`return int(norm * 127)`.  Generic over an ordered field so it can be run at
`ℚ` and used at `ℝ` inside the geometry pipeline. -/
def normalize_to_cc {α : Type} [LinearOrderedField α] [FloorRing α]
    (dist_px min_d max_d : α) : ℤ :=
  pyInt ((clampDist dist_px min_d max_d - min_d) / (max_d - min_d) * 127)

/-- Variant of `normalize_to_cc` with the fallibility of the Python original made
explicit: the division `/(max_d - min_d)` raises `ZeroDivisionError` when
`max_d - min_d == 0`, which is modelled as `none`. -/
def fallibleNormalize {α : Type} [LinearOrderedField α] [FloorRing α]
    (dist_px min_d max_d : α) : Option ℤ :=
  if max_d - min_d = 0 then none else some (normalize_to_cc dist_px min_d max_d)

/-! ## MidiSink wire format (handler.py lines 56-66, `send_cc`) -/

/-- The 3-byte Control Change message `[0xB0 | (channel & 0x0F),
cc_number & 0x7F, max(0, min(127, int(value)))]` built by `send_cc`. -/
structure MidiMsg where
  status : ℕ
  cc : ℕ
  value : ℤ
deriving DecidableEq

/-- Function `send_cc(midi_out, cc_number, value, channel)` from handler.py: the
message it hands to `midi_out.send_message`. -/
def send_cc (cc_number : ℕ) (value : ℤ) (channel : ℕ) : MidiMsg :=
  ⟨0xB0 ||| (channel &&& 0x0F), cc_number &&& 0x7F, max 0 (min 127 value)⟩

/-! ## GeometryEngine (handler.py lines 92-127, `draw_line_info`) -/

/-- A pixel point `(x, y)`, Python ints. -/
def Point : Type := ℤ × ℤ

instance : DecidableEq Point := instDecidableEqProd

/-- Model of `math.atan2(y, x)` on exact reals: the standard two-argument arctangent
with range `(-π, π]` and `atan2(0, 0) = 0`.  (The Python inputs here are
integer differences, so IEEE signed zeros never arise.) -/
noncomputable def atan2 (y x : ℝ) : ℝ :=
  if 0 < x then Real.arctan (y / x)
  else if x < 0 then
    (if 0 ≤ y then Real.arctan (y / x) + Real.pi else Real.arctan (y / x) - Real.pi)
  else
    (if 0 < y then Real.pi / 2 else if y < 0 then -(Real.pi / 2) else 0)

/-- Distance `dist = math.sqrt((x2 - x1) ** 2 + (y2 - y1) ** 2)` (handler.py line 99). -/
noncomputable def measureDist (p1 p2 : Point) : ℝ :=
  Real.sqrt (((p2.1 - p1.1 : ℤ) : ℝ) ^ 2 + ((p2.2 - p1.2 : ℤ) : ℝ) ^ 2)

/-- Angle `angle = math.degrees(math.atan2((y2 - y1), (x2 - x1)))`
(handler.py line 102). -/
noncomputable def measureAngle (p1 p2 : Point) : ℝ :=
  atan2 ((p2.2 - p1.2 : ℤ) : ℝ) ((p2.1 - p1.1 : ℤ) : ℝ) * 180 / Real.pi

/-- The measurement part of `draw_line_info`: `None` when either point is
`None` (line 92-93), else the `(dist, angle)` pair it returns (line 127). -/
noncomputable def measure (p1 p2 : Option Point) : Option (ℝ × ℝ) :=
  match p1, p2 with
  | some q1, some q2 => some (measureDist q1 q2, measureAngle q1 q2)
  | _, _ => (none : Option (ℝ × ℝ))

/-- Function `draw_line_info(frame, p1, p2, label, color, midi_out, cc_number)` from
handler.py lines 92-127, with the two frame-drawing effects kept as data:
the first component is the measurement that is drawn onto the display frame
(and returned), the second is the MIDI message sent, if any.  `hasMidiOut`
models `midi_out is not None`; the range `(mn, mx)` stands for the constants
`MIN_DIST_PX, MAX_DIST_PX` that the `normalize_to_cc(dist)` calls use as
default arguments.  Infallible version (assumes `mn ≠ mx`; see
`fallibleLineInfo` for the general one). -/
noncomputable def draw_line_info (p1 p2 : Option Point) (hasMidiOut : Bool)
    (cc_number : Option ℕ) (mn mx : ℝ) : Option (ℝ × ℝ) × Option MidiMsg :=
  match p1, p2 with
  | some q1, some q2 =>
      (some (measureDist q1 q2, measureAngle q1 q2),
       match cc_number, hasMidiOut with
       | some cc, true =>
           some (send_cc cc (normalize_to_cc (measureDist q1 q2) mn mx) MIDI_CHANNEL)
       | _, _ => none)
  | _, _ => ((none : Option (ℝ × ℝ)), (none : Option MidiMsg))

/-- Variant of `draw_line_info` with the `ZeroDivisionError` of `normalize_to_cc` made
explicit.  Note the error fires whenever both points are present and
`mx - mn = 0`, independently of MIDI emission, because line 110 of handler.py
calls `normalize_to_cc(dist)` to build the on-screen label text. -/
noncomputable def fallibleLineInfo (p1 p2 : Option Point) (hasMidiOut : Bool)
    (cc_number : Option ℕ) (mn mx : ℝ) :
    Option (Option (ℝ × ℝ) × Option MidiMsg) :=
  match p1, p2 with
  | some q1, some q2 =>
      match fallibleNormalize (measureDist q1 q2) mn mx with
      | none => none
      | some v =>
          some (some (measureDist q1 q2, measureAngle q1 q2),
                match cc_number, hasMidiOut with
                | some cc, true => some (send_cc cc v MIDI_CHANNEL)
                | _, _ => none)
  | _, _ => some ((none : Option (ℝ × ℝ)), (none : Option MidiMsg))

/-! ## RateLimiter (handler.py lines 152-153, 202-203, 233) -/

/-- Constant `send_interval = 1 / 30.0` (handler.py line 153). -/
def send_interval : ℚ := 1 / 30

/-- Decision `send_midi_now = (now - last_send) > send_interval` (handler.py
line 203). -/
def emitDecision (now last_send : ℚ) : Bool :=
  decide (now - last_send > send_interval)

/-- One rate-gate interaction of the loop: the decision of line 203 together
with the `last_send = now` update of line 233, which the loop performs only
inside the `if send_midi_now:` branch. -/
def rateStep (last_send now : ℚ) : Bool × ℚ :=
  (emitDecision now last_send, if emitDecision now last_send then now else last_send)

/-- The decisions produced by successive frames at the given timestamps,
threading `last_send` exactly as the loop does (initial value `0.0`,
handler.py line 152). -/
def rateSeq (last_send : ℚ) : List ℚ → List Bool
  | [] => []
  | t :: ts => (rateStep last_send t).1 :: rateSeq (rateStep last_send t).2 ts

/-! ## FeatureExtractor (handler.py lines 168-188) -/

/-- The fingertip store `coords` (handler.py lines 168-171): one optional
pixel point per side and per fingertip. -/
structure Coords where
  leftThumb : Option Point
  leftIndex : Option Point
  rightThumb : Option Point
  rightIndex : Option Point
deriving DecidableEq

/-- Initial store: every entry of `coords` is `None`. -/
def emptyCoords : Coords := ⟨none, none, none, none⟩

/-- Label `handedness.classification[0].label`, Left or Right. -/
inductive Side where
  | Left
  | Right
deriving DecidableEq

/-- One detected hand of `results`: its side label and its landmarks 4
(thumb tip) and 8 (index tip) in normalized coordinates.  Floats are
modelled as exact rationals. -/
structure Detection where
  side : Side
  thumb_tip : ℚ × ℚ
  index_tip : ℚ × ℚ

/-- Pixel conversion of lines 181-182: `int(tip.x * w), int(tip.y * h)`. -/
def handPixels (w h : ℕ) (d : Detection) : Point × Point :=
  ((pyInt (d.thumb_tip.1 * w), pyInt (d.thumb_tip.2 * h)),
   (pyInt (d.index_tip.1 * w), pyInt (d.index_tip.2 * h)))

/-- The two dict writes of lines 184-185:
`coords[label]["thumb"] = ...; coords[label]["index"] = ...`. -/
def setHand (c : Coords) (s : Side) (tp ip : Point) : Coords :=
  match s with
  | Side.Left => ⟨some tp, some ip, c.rightThumb, c.rightIndex⟩
  | Side.Right => ⟨c.leftThumb, c.leftIndex, some tp, some ip⟩

/-- The body of the `for hand_landmarks, handedness in zip(...)` loop
(lines 175-188), restricted to its effect on `coords`. -/
def extractStep (w h : ℕ) (c : Coords) (d : Detection) : Coords :=
  setHand c d.side (handPixels w h d).1 (handPixels w h d).2

/-- The whole extraction loop: fold the per-hand writes over the detection
results, starting from the all-`None` store. -/
def extractCoords (w h : ℕ) (ds : List Detection) : Coords :=
  ds.foldl (extractStep w h) emptyCoords

/-- The observation the store holds for one side. -/
def sideObs (c : Coords) : Side → Option Point × Option Point
  | Side.Left => (c.leftThumb, c.leftIndex)
  | Side.Right => (c.rightThumb, c.rightIndex)

/-! ## Orchestration: the four channel mappings per frame
(handler.py lines 205-233) -/

/-- The four point pairs, in the order the loop processes them:
left thumb-index, right thumb-index, thumb-thumb, index-index. -/
def pairPoints (c : Coords) (i : Fin 4) : Option Point × Option Point :=
  if i = 0 then (c.leftThumb, c.leftIndex)
  else if i = 1 then (c.rightThumb, c.rightIndex)
  else if i = 2 then (c.leftThumb, c.rightThumb)
  else (c.leftIndex, c.rightIndex)

/-- The CC number each of the four pairs is wired to. -/
def pairCC (i : Fin 4) : ℕ :=
  if i = 0 then CC_LEFT_HAND
  else if i = 1 then CC_RIGHT_HAND
  else if i = 2 then CC_THUMB_TO_THUMB
  else CC_INDEX_TO_INDEX

/-- Both endpoints of pair `i` were detected this frame. -/
def pairPresent (c : Coords) (i : Fin 4) : Bool :=
  (pairPoints c i).1.isSome && (pairPoints c i).2.isSome

/-- One iteration of the per-frame emission block (handler.py lines
202-233): compute `send_midi_now` once, then run `draw_line_info` on the
four pairs — with `midi_out` and a CC number when `send_midi_now` is true
(lines 206-219), with neither otherwise (lines 223-226) — and update
`last_send` in the emitting branch (line 233).  Returns the four per-pair
results (display measurement, MIDI message) and the new `last_send`. -/
noncomputable def processFrame (c : Coords) (now last_send : ℚ) (mn mx : ℝ) :
    (Fin 4 → Option (ℝ × ℝ) × Option MidiMsg) × ℚ :=
  (fun i =>
    draw_line_info (pairPoints c i).1 (pairPoints c i).2
      (emitDecision now last_send)
      (if emitDecision now last_send then some (pairCC i) else none) mn mx,
   if emitDecision now last_send then now else last_send)

/-- Variant of `processFrame` with the `ZeroDivisionError` of `normalize_to_cc` made
explicit: `none` models the frame raising and the loop dying (so `last_send`
is never updated). -/
noncomputable def fallibleProcessFrame (c : Coords) (now last_send : ℚ)
    (mn mx : ℝ) : Option ((Fin 4 → Option (ℝ × ℝ) × Option MidiMsg) × ℚ) :=
  (fallibleLineInfo (pairPoints c 0).1 (pairPoints c 0).2
      (emitDecision now last_send)
      (if emitDecision now last_send then some (pairCC 0) else none) mn mx).bind fun a0 =>
  (fallibleLineInfo (pairPoints c 1).1 (pairPoints c 1).2
      (emitDecision now last_send)
      (if emitDecision now last_send then some (pairCC 1) else none) mn mx).bind fun a1 =>
  (fallibleLineInfo (pairPoints c 2).1 (pairPoints c 2).2
      (emitDecision now last_send)
      (if emitDecision now last_send then some (pairCC 2) else none) mn mx).bind fun a2 =>
  (fallibleLineInfo (pairPoints c 3).1 (pairPoints c 3).2
      (emitDecision now last_send)
      (if emitDecision now last_send then some (pairCC 3) else none) mn mx).map fun a3 =>
    (fun i => if i = 0 then a0 else if i = 1 then a1
              else if i = 2 then a2 else a3,
     if emitDecision now last_send then now else last_send)

/-- The startup section of `run` (handler.py lines 133-156), before the
`while True:` loop: it opens the MIDI port, the capture device and the
Hands model, prints a banner, and initialises `last_send = 0.0` and
`send_interval = 1/30`.  No statement in it reads `MIN_DIST_PX` or
`MAX_DIST_PX`, so startup can never fail because of the configured
normalization range; it is modelled as always succeeding with the initial
`last_send`, parametrised by the configured range, which it ignores. -/
def startup (mn mx : ℝ) : Option ℚ := some 0

/-- The fixed frame of claim C7: Left thumb at pixel (100,100), Left index
at (100,150), no Right hand detected. -/
def scenarioCoords : Coords := ⟨some (100, 100), some (100, 150), none, none⟩

/-! ## Helper lemmas: Normalizer -/

lemma clampDist_mem {α : Type} [LinearOrderedField α] (d mn mx : α) (h : mn < mx) :
    mn ≤ clampDist d mn mx ∧ clampDist d mn mx ≤ mx := by
  refine ⟨le_max_left _ _, max_le h.le (min_le_left _ _)⟩

lemma normalize_norm_nonneg {α : Type} [LinearOrderedField α] [FloorRing α]
    (d mn mx : α) (h : mn < mx) :
    0 ≤ (clampDist d mn mx - mn) / (mx - mn) * 127 := by
  have hpos : (0:α) < mx - mn := sub_pos.mpr h
  have h1 : 0 ≤ clampDist d mn mx - mn := sub_nonneg.mpr (clampDist_mem d mn mx h).1
  positivity

lemma normalize_eq_floor {α : Type} [LinearOrderedField α] [FloorRing α]
    (d mn mx : α) (h : mn < mx) :
    normalize_to_cc d mn mx = ⌊(clampDist d mn mx - mn) / (mx - mn) * 127⌋ := by
  unfold normalize_to_cc pyInt
  rw [if_pos (normalize_norm_nonneg d mn mx h)]

lemma normalize_at_min {α : Type} [LinearOrderedField α] [FloorRing α]
    (mn mx : α) (h : mn < mx) : normalize_to_cc mn mn mx = 0 := by
  have hc : clampDist mn mn mx = mn := by
    unfold clampDist
    rw [min_eq_right h.le, max_self]
  rw [normalize_eq_floor mn mn mx h, hc]
  simp

lemma normalize_at_max {α : Type} [LinearOrderedField α] [FloorRing α]
    (mn mx : α) (h : mn < mx) : normalize_to_cc mx mn mx = 127 := by
  have hc : clampDist mx mn mx = mx := by
    unfold clampDist
    rw [min_self, max_eq_right h.le]
  have hne : mx - mn ≠ 0 := ne_of_gt (sub_pos.mpr h)
  rw [normalize_eq_floor mx mn mx h, hc, div_self hne, one_mul]
  simp

lemma normalize_below_min {α : Type} [LinearOrderedField α] [FloorRing α]
    (d mn mx : α) (h : mn < mx) (hd : d < mn) :
    normalize_to_cc d mn mx = normalize_to_cc mn mn mx := by
  have hc : clampDist d mn mx = mn := by
    unfold clampDist
    rw [min_eq_right (hd.le.trans h.le), max_eq_left hd.le]
  have hcmn : clampDist mn mn mx = mn := by
    unfold clampDist
    rw [min_eq_right h.le, max_self]
  rw [normalize_eq_floor d mn mx h, normalize_eq_floor mn mn mx h, hc, hcmn]

lemma normalize_above_max {α : Type} [LinearOrderedField α] [FloorRing α]
    (d mn mx : α) (h : mn < mx) (hd : mx < d) :
    normalize_to_cc d mn mx = normalize_to_cc mx mn mx := by
  have hc : clampDist d mn mx = mx := by
    unfold clampDist
    rw [min_eq_left hd.le, max_eq_right h.le]
  have hcmx : clampDist mx mn mx = mx := by
    unfold clampDist
    rw [min_self, max_eq_right h.le]
  rw [normalize_eq_floor d mn mx h, normalize_eq_floor mx mn mx h, hc, hcmx]

lemma normalize_mono {α : Type} [LinearOrderedField α] [FloorRing α]
    (d1 d2 mn mx : α) (h : mn < mx) (hd : d1 ≤ d2) :
    normalize_to_cc d1 mn mx ≤ normalize_to_cc d2 mn mx := by
  rw [normalize_eq_floor d1 mn mx h, normalize_eq_floor d2 mn mx h]
  have hpos : (0:α) < mx - mn := sub_pos.mpr h
  have hclamp : clampDist d1 mn mx ≤ clampDist d2 mn mx :=
    max_le_max le_rfl (min_le_min le_rfl hd)
  have hnorm : (clampDist d1 mn mx - mn) / (mx - mn) * 127 ≤
      (clampDist d2 mn mx - mn) / (mx - mn) * 127 := by
    have hdiv := (div_le_div_iff_of_pos_right hpos).mpr (sub_le_sub_right hclamp mn)
    exact mul_le_mul_of_nonneg_right hdiv (by norm_num)
  exact Int.floor_le_floor hnorm

lemma normalize_range {α : Type} [LinearOrderedField α] [FloorRing α]
    (d mn mx : α) (h : mn < mx) :
    0 ≤ normalize_to_cc d mn mx ∧ normalize_to_cc d mn mx ≤ 127 := by
  rw [normalize_eq_floor d mn mx h]
  have hpos : (0:α) < mx - mn := sub_pos.mpr h
  have hmem := clampDist_mem d mn mx h
  have h0 : 0 ≤ (clampDist d mn mx - mn) / (mx - mn) * 127 :=
    normalize_norm_nonneg d mn mx h
  have h1 : (clampDist d mn mx - mn) / (mx - mn) ≤ 1 := by
    rw [div_le_one hpos]
    exact sub_le_sub_right hmem.2 mn
  have h127 : (clampDist d mn mx - mn) / (mx - mn) * 127 ≤ 127 := by
    calc (clampDist d mn mx - mn) / (mx - mn) * 127 ≤ 1 * 127 :=
          mul_le_mul_of_nonneg_right h1 (by norm_num)
      _ = 127 := one_mul _
  constructor
  · exact Int.floor_nonneg.mpr h0
  · have : (⌊(clampDist d mn mx - mn) / (mx - mn) * 127⌋ : α) ≤ 127 :=
      le_trans (Int.floor_le _) h127
    exact_mod_cast this

/-! ## Helper lemmas: GeometryEngine -/

lemma atan2_mem_Ioc (y x : ℝ) : atan2 y x ∈ Set.Ioc (-Real.pi) Real.pi := by
  have hpi : (0:ℝ) < Real.pi := Real.pi_pos
  have harcU : ∀ z : ℝ, Real.arctan z < Real.pi / 2 := Real.arctan_lt_pi_div_two
  have harcL : ∀ z : ℝ, -(Real.pi / 2) < Real.arctan z := Real.neg_pi_div_two_lt_arctan
  unfold atan2
  split_ifs with h1 h2 h3 h4 h5
  · exact ⟨by linarith [harcL (y / x)], by linarith [harcU (y / x)]⟩
  · have hyx : y / x ≤ 0 := div_nonpos_iff.mpr (Or.inl ⟨h3, h2.le⟩)
    have harc : Real.arctan (y / x) ≤ 0 := by
      have := Real.arctan_strictMono.monotone hyx
      rwa [Real.arctan_zero] at this
    exact ⟨by linarith [harcL (y / x)], by linarith⟩
  · have hyx : 0 < y / x := div_pos_of_neg_of_neg (lt_of_not_le h3) h2
    have harc : 0 < Real.arctan (y / x) := by
      have := Real.arctan_strictMono hyx
      rwa [Real.arctan_zero] at this
    exact ⟨by linarith, by linarith [harcU (y / x)]⟩
  · exact ⟨by linarith, by linarith⟩
  · exact ⟨by linarith, by linarith⟩
  · exact ⟨by linarith, by linarith⟩

lemma measureAngle_mem_Ioc (p1 p2 : Point) :
    measureAngle p1 p2 ∈ Set.Ioc (-180 : ℝ) 180 := by
  have hpi : (0:ℝ) < Real.pi := Real.pi_pos
  obtain ⟨hl, hu⟩ := atan2_mem_Ioc ((p2.2 - p1.2 : ℤ) : ℝ) ((p2.1 - p1.1 : ℤ) : ℝ)
  unfold measureAngle
  constructor
  · rw [lt_div_iff hpi]
    nlinarith
  · rw [div_le_iff hpi]
    nlinarith

lemma atan2_zero_zero : atan2 0 0 = 0 := by
  unfold atan2
  norm_num

lemma measure_self (q : Point) : measure (some q) (some q) = some (0, 0) := by
  show some (measureDist q q, measureAngle q q) = some (0, 0)
  unfold measureDist measureAngle
  simp only [sub_self, Int.cast_zero]
  norm_num [atan2_zero_zero]

/-! ## Helper lemmas: the C7 scenario numbers -/

lemma scenario_dist : measureDist (100, 100) (100, 150) = 50 := by
  unfold measureDist
  norm_num
  rw [show ((2500:ℝ)) = 50 ^ 2 by norm_num, Real.sqrt_sq (by norm_num : (0:ℝ) ≤ 50)]

lemma atan2_pos_y (y : ℝ) (hy : 0 < y) : atan2 y 0 = Real.pi / 2 := by
  unfold atan2
  norm_num [hy]

lemma scenario_angle : measureAngle (100, 100) (100, 150) = 90 := by
  unfold measureAngle
  norm_num
  rw [atan2_pos_y 50 (by norm_num)]
  field_simp
  ring

lemma normalize_fifty : normalize_to_cc (50:ℝ) 20 400 = 10 := by
  unfold normalize_to_cc clampDist pyInt
  rw [min_eq_right (by norm_num : (50:ℝ) ≤ 400), max_eq_right (by norm_num : (20:ℝ) ≤ 50)]
  rw [if_pos (by norm_num)]
  rw [show ((50:ℝ) - 20) / (400 - 20) * 127 = 381 / 38 by norm_num]
  rw [Int.floor_eq_iff]
  constructor <;> norm_num

/-! ## Helper lemmas: RateLimiter evaluations -/

lemma emit_at_zero : emitDecision 0 0 = false := by
  simp only [emitDecision, send_interval, decide_eq_false_iff_not]
  norm_num

lemma emit_at_002 : emitDecision (50:ℚ)⁻¹ 0 = false := by
  simp only [emitDecision, send_interval, decide_eq_false_iff_not]
  norm_num

lemma emit_at_005 : emitDecision (20:ℚ)⁻¹ 0 = true := by
  simp only [emitDecision, send_interval, decide_eq_true_eq]
  norm_num

lemma emit_at_one : emitDecision 1 0 = true := by
  simp only [emitDecision, send_interval, decide_eq_true_eq]
  norm_num

lemma rateSeq_002 : rateSeq 0 [0, 1/50] = [false, false] := by
  simp [rateSeq, rateStep, emit_at_zero, emit_at_002]

lemma rateSeq_005 : rateSeq 0 [0, 1/20] = [false, true] := by
  simp [rateSeq, rateStep, emit_at_zero, emit_at_005]

/-! ## Helper lemmas: per-frame emission -/

lemma frame_midi_isSome (c : Coords) (now last_send : ℚ) (mn mx : ℝ) (i : Fin 4) :
    ((processFrame c now last_send mn mx).1 i).2.isSome
      = (emitDecision now last_send && pairPresent c i) := by
  cases hp1 : (pairPoints c i).1 <;> cases hp2 : (pairPoints c i).2 <;>
    cases he : emitDecision now last_send <;>
      simp [processFrame, draw_line_info, pairPresent, hp1, hp2, he]

lemma frame_display_isSome (c : Coords) (now last_send : ℚ) (mn mx : ℝ) (i : Fin 4) :
    ((processFrame c now last_send mn mx).1 i).1.isSome = pairPresent c i := by
  cases hp1 : (pairPoints c i).1 <;> cases hp2 : (pairPoints c i).2 <;>
    cases he : emitDecision now last_send <;>
      simp [processFrame, draw_line_info, pairPresent, hp1, hp2, he]

lemma fallibleLineInfo_of_ne (p1 p2 : Option Point) (b : Bool) (cc : Option ℕ)
    (mn mx : ℝ) (h : mn ≠ mx) :
    fallibleLineInfo p1 p2 b cc mn mx = some (draw_line_info p1 p2 b cc mn mx) := by
  have hne : mx - mn ≠ 0 := sub_ne_zero.mpr (Ne.symm h)
  cases p1 <;> cases p2 <;>
    simp [fallibleLineInfo, draw_line_info, fallibleNormalize, hne]

lemma scenario_pair0 :
    draw_line_info (some (100, 100)) (some (100, 150)) true (some CC_LEFT_HAND) 20 400
      = (some (50, 90), some ⟨0xB0, CC_LEFT_HAND, 10⟩) := by
  simp only [draw_line_info, scenario_dist, scenario_angle, normalize_fifty]
  rfl

/-! ## Helper lemmas: FeatureExtractor -/

lemma sideObs_setHand_same (c : Coords) (s : Side) (tp ip : Point) :
    sideObs (setHand c s tp ip) s = (some tp, some ip) := by
  cases s <;> rfl

lemma sideObs_setHand_other (c : Coords) (s s2 : Side) (tp ip : Point)
    (h : s ≠ s2) : sideObs (setHand c s tp ip) s2 = sideObs c s2 := by
  cases s <;> cases s2 <;> first | rfl | exact absurd rfl h

lemma extract_foldl_aux (w h : ℕ) (ds : List Detection) (s : Side) :
    ∀ c : Coords,
      sideObs (ds.foldl (extractStep w h) c) s =
        match (ds.filter (fun d => d.side == s)).getLast? with
        | some d => (some (handPixels w h d).1, some (handPixels w h d).2)
        | none => sideObs c s := by
  induction ds with
  | nil => intro c; rfl
  | cons d ds ih =>
    intro c
    rw [List.foldl_cons, ih (extractStep w h c d)]
    by_cases hd : d.side = s
    · rw [List.filter_cons_of_pos (by simpa using hd)]
      rcases hfilter : ds.filter (fun d2 => d2.side == s) with _ | ⟨x, xs⟩
      · simp only [hfilter, List.getLast?_nil, List.getLast?_singleton]
        unfold extractStep
        rw [hd, sideObs_setHand_same]
      · rw [hfilter] at ih ⊢
        rw [List.getLast?_cons_cons]
        cases hlast : (x :: xs).getLast? with
        | none => exact absurd hlast (by simp)
        | some y => simp only [hlast]
    · rw [List.filter_cons_of_neg (by simpa using hd)]
      have hstep : sideObs (extractStep w h c d) s = sideObs c s := by
        unfold extractStep
        exact sideObs_setHand_other c d.side s _ _ hd
      cases hlast : (ds.filter (fun d2 => d2.side == s)).getLast? with
      | none => simp only [hlast, hstep]
      | some y => simp only [hlast]

lemma sideObs_empty (s : Side) : sideObs emptyCoords s = (none, none) := by
  cases s <;> rfl

/-! ## Claim theorems -/

/-- C1: `normalize_to_cc(d, min, max)` with `min < max` clamps `d` into
`[min, max]`, computes `norm = (clamped - min) / (max - min)` and returns
`floor(norm * 127)`; `toCC(min, min, max) = 0`, `toCC(max, min, max) = 127`,
and any `d < min` (resp. `d > max`) gives the same result as `d = min`
(resp. `d = max`). -/
theorem toCC_spec {α : Type} [LinearOrderedField α] [FloorRing α]
    (d mn mx : α) (h : mn < mx) :
    normalize_to_cc d mn mx = ⌊(clampDist d mn mx - mn) / (mx - mn) * 127⌋
    ∧ normalize_to_cc mn mn mx = 0
    ∧ normalize_to_cc mx mn mx = 127
    ∧ (d < mn → normalize_to_cc d mn mx = normalize_to_cc mn mn mx)
    ∧ (mx < d → normalize_to_cc d mn mx = normalize_to_cc mx mn mx) :=
  ⟨normalize_eq_floor d mn mx h, normalize_at_min mn mx h, normalize_at_max mn mx h,
   fun hd => normalize_below_min d mn mx h hd,
   fun hd => normalize_above_max d mn mx h hd⟩

/-- C1 witness: the conjunction evaluated at `d = 10`, `min = 20`,
`max = 400` over `ℚ`. -/
theorem toCC_spec_witness :
    (20:ℚ) < 400
    ∧ (normalize_to_cc (10:ℚ) 20 400 =
          ⌊(clampDist (10:ℚ) 20 400 - 20) / (400 - 20) * 127⌋
       ∧ normalize_to_cc (20:ℚ) 20 400 = 0
       ∧ normalize_to_cc (400:ℚ) 20 400 = 127
       ∧ ((10:ℚ) < 20 → normalize_to_cc (10:ℚ) 20 400 = normalize_to_cc (20:ℚ) 20 400)
       ∧ ((400:ℚ) < 10 → normalize_to_cc (10:ℚ) 20 400 = normalize_to_cc (400:ℚ) 20 400)) :=
  ⟨by norm_num, toCC_spec 10 20 400 (by norm_num)⟩

/-- C2: with `min < max`, `normalize_to_cc` is monotonically non-decreasing
in the distance, and its output always lies in `[0, 127]`, even for
out-of-range distances (which are clamped). -/
theorem toCC_mono_and_range {α : Type} [LinearOrderedField α] [FloorRing α]
    (d1 d2 mn mx : α) (h : mn < mx) (hd : d1 ≤ d2) :
    normalize_to_cc d1 mn mx ≤ normalize_to_cc d2 mn mx
    ∧ 0 ≤ normalize_to_cc d1 mn mx
    ∧ normalize_to_cc d1 mn mx ≤ 127 :=
  ⟨normalize_mono d1 d2 mn mx h hd, (normalize_range d1 mn mx h).1,
   (normalize_range d1 mn mx h).2⟩

/-- C2 witness: monotonicity and range at the out-of-range pair
`d1 = 500 ≤ d2 = 600` with range `[20, 400]` over `ℚ`. -/
theorem toCC_mono_and_range_witness :
    (20:ℚ) < 400 ∧ (500:ℚ) ≤ 600
    ∧ (normalize_to_cc (500:ℚ) 20 400 ≤ normalize_to_cc (600:ℚ) 20 400
       ∧ 0 ≤ normalize_to_cc (500:ℚ) 20 400
       ∧ normalize_to_cc (500:ℚ) 20 400 ≤ 127) :=
  ⟨by norm_num, by norm_num, toCC_mono_and_range 500 600 20 400 (by norm_num) (by norm_num)⟩

/-- C3: for every frame and each of the four channel pairs, a MIDI CC
message is produced exactly when the frame's emit decision is true and both
endpoints of the pair are present; the display measurement is produced
exactly when both endpoints are present, independently of the emit decision
(so an absent endpoint silently skips only that pair's emission, and there
is no stale-value replay: the outputs are a function of the current frame's
points alone). -/
theorem midi_iff_gate_and_present (c : Coords) (now last_send : ℚ)
    (mn mx : ℝ) (i : Fin 4) :
    ((processFrame c now last_send mn mx).1 i).2.isSome
        = (emitDecision now last_send && pairPresent c i)
    ∧ ((processFrame c now last_send mn mx).1 i).1.isSome = pairPresent c i :=
  ⟨frame_midi_isSome c now last_send mn mx i,
   frame_display_isSome c now last_send mn mx i⟩

/-- C4 counterexample: with the gate in its initial state
(`last_send = 0.0`) and the strict policy `now - last_send > 1/30`, the
call at `t = 0` yields `false`, not `true`: the claimed decision sequences
`(true, false)` at `t = 0, 0.02` and `(true, true)` at `t = 0, 0.05` are
both wrong in their first component. -/
theorem rate_gate_counterexample :
    rateSeq 0 [0, 1/50] ≠ [true, false] ∧ rateSeq 0 [0, 1/20] ≠ [true, true] := by
  rw [rateSeq_002, rateSeq_005]
  refine ⟨fun hc => ?_, fun hc => ?_⟩ <;> simpa using congrArg (fun l => l.head?) hc

/-- C4 amended: emission is permitted exactly when
`now - last_send > 1/30` (strict), and from the initial state the calls at
`t = 0, 0.02` yield `(false, false)` while the calls at `t = 0, 0.05`
yield `(false, true)`. -/
theorem rate_gate_amended :
    (∀ now last_send : ℚ,
        ((rateStep last_send now).1 = true ↔ now - last_send > send_interval)
        ∧ (rateStep last_send now).2 = if now - last_send > send_interval then now else last_send)
    ∧ rateSeq 0 [0, 1/50] = [false, false]
    ∧ rateSeq 0 [0, 1/20] = [false, true] := by
  refine ⟨fun now last_send => ⟨?_, ?_⟩, rateSeq_002, rateSeq_005⟩
  · simp [rateStep, emitDecision]
  · simp [rateStep, emitDecision]

/-- C5: the rate-limit decision is a single shared gate per frame: either
every one of the four channels whose pair is present emits this frame, or
none of the four channels emits at all. -/
theorem single_shared_gate (c : Coords) (now last_send : ℚ) (mn mx : ℝ) :
    (∀ i : Fin 4,
        ((processFrame c now last_send mn mx).1 i).2.isSome = pairPresent c i)
    ∨ ∀ i : Fin 4, ((processFrame c now last_send mn mx).1 i).2 = none := by
  cases he : emitDecision now last_send
  · right
    intro i
    have h := frame_midi_isSome c now last_send mn mx i
    rw [he, Bool.false_and] at h
    exact Option.not_isSome_iff_eq_none.mp (by rw [h]; exact Bool.false_ne_true ∘ id)
  · left
    intro i
    have h := frame_midi_isSome c now last_send mn mx i
    rwa [he, Bool.true_and] at h

/-- C6: `measure` is absent when either point is absent; on two present
points it returns the Euclidean distance and the `atan2`-based angle in
degrees; the angle always lies in `(-180, 180]`; and identical points give
distance 0 and angle 0. -/
theorem measure_spec :
    (∀ p : Option Point, measure none p = none ∧ measure p none = none)
    ∧ (∀ q1 q2 : Point, measure (some q1) (some q2) =
        some (Real.sqrt (((q2.1 - q1.1 : ℤ) : ℝ) ^ 2 + ((q2.2 - q1.2 : ℤ) : ℝ) ^ 2),
              atan2 ((q2.2 - q1.2 : ℤ) : ℝ) ((q2.1 - q1.1 : ℤ) : ℝ) * 180 / Real.pi))
    ∧ (∀ q1 q2 : Point, measureAngle q1 q2 ∈ Set.Ioc (-180 : ℝ) 180)
    ∧ ∀ q : Point, measure (some q) (some q) = some (0, 0) := by
  refine ⟨fun p => ⟨?_, ?_⟩, fun q1 q2 => rfl, measureAngle_mem_Ioc, measure_self⟩
  · cases p <;> rfl
  · cases p <;> rfl

/-- C7: on the frame with Left thumb at (100,100), Left index at (100,150)
and no Right hand, with range 20-400 and the gate open, the left-hand
channel measures distance 50 and angle 90 degrees and emits CC 20 with
value 10 (`floor((50-20)/(400-20)*127) = round(...) = 10`), while the
right-hand, thumb-thumb and index-index channels produce nothing at all. -/
theorem end_to_end_scenario :
    ((processFrame scenarioCoords 1 0 20 400).1 0).1 = some (50, 90)
    ∧ ((processFrame scenarioCoords 1 0 20 400).1 0).2 = some ⟨0xB0, CC_LEFT_HAND, 10⟩
    ∧ (processFrame scenarioCoords 1 0 20 400).1 1 = (none, none)
    ∧ (processFrame scenarioCoords 1 0 20 400).1 2 = (none, none)
    ∧ (processFrame scenarioCoords 1 0 20 400).1 3 = (none, none) := by
  have h0 : (processFrame scenarioCoords 1 0 20 400).1 0
      = (some (50, 90), some ⟨0xB0, CC_LEFT_HAND, 10⟩) := by
    show draw_line_info (pairPoints scenarioCoords 0).1 (pairPoints scenarioCoords 0).2
        (emitDecision 1 0) (if emitDecision 1 0 then some (pairCC 0) else none) 20 400 = _
    rw [emit_at_one]
    exact scenario_pair0
  refine ⟨by rw [h0], by rw [h0], ?_, ?_, ?_⟩ <;> rfl

/-- C8 counterexample: with an invalid configured range
(`MIN_DIST_PX = MAX_DIST_PX = 20`), the program does not fail before the
per-frame loop — the startup section performs no range validation — and the
degenerate division by zero instead occurs during per-frame operation, on
the first frame where some pair is fully detected. -/
theorem range_validation_counterexample :
    startup 20 20 ≠ none
    ∧ fallibleProcessFrame scenarioCoords 1 0 20 20 = none := by
  constructor
  · simp [startup]
  · have h0 : fallibleLineInfo (some ((100:ℤ), (100:ℤ))) (some ((100:ℤ), (150:ℤ)))
        true (some CC_LEFT_HAND) 20 20 = none := by
      simp [fallibleLineInfo, fallibleNormalize]
    show (fallibleLineInfo (pairPoints scenarioCoords 0).1 (pairPoints scenarioCoords 0).2
        (emitDecision 1 0) (if emitDecision 1 0 then some (pairCC 0) else none) 20 20).bind _
      = none
    rw [emit_at_one]
    show (fallibleLineInfo (some (100, 100)) (some (100, 150))
        true (some (pairCC 0)) 20 20).bind _ = none
    rw [show pairCC 0 = CC_LEFT_HAND from rfl, h0]
    rfl

/-- C8 amended: the code performs no fail-fast validation of the
normalization range; the shipped constants are valid (`20 < 400`), startup
succeeds whatever the range is, and whenever `min ≠ max` the per-frame
pipeline never raises (it computes exactly the infallible pipeline) — so
the degenerate division is unreachable only because the constants are
valid, not because of any startup check. -/
theorem no_range_validation (c : Coords) (now last_send : ℚ) (mn mx : ℝ)
    (h : mn ≠ mx) :
    MIN_DIST_PX < MAX_DIST_PX
    ∧ startup mn mx = some 0
    ∧ fallibleProcessFrame c now last_send mn mx
        = some (processFrame c now last_send mn mx) := by
  refine ⟨by norm_num [MIN_DIST_PX, MAX_DIST_PX], rfl, ?_⟩
  unfold fallibleProcessFrame processFrame
  rw [fallibleLineInfo_of_ne _ _ _ _ _ _ h, fallibleLineInfo_of_ne _ _ _ _ _ _ h,
      fallibleLineInfo_of_ne _ _ _ _ _ _ h, fallibleLineInfo_of_ne _ _ _ _ _ _ h]
  simp only [Option.some_bind, Option.map_some']
  refine congrArg some (Prod.ext ?_ rfl)
  funext i
  fin_cases i <;> rfl

/-- C8 amended, witness at `c = scenarioCoords`, `now = 1`, `last = 0`,
`min = 20 ≠ max = 400`. -/
theorem no_range_validation_witness :
    (20:ℝ) ≠ 400
    ∧ (MIN_DIST_PX < MAX_DIST_PX
       ∧ startup 20 400 = some 0
       ∧ fallibleProcessFrame scenarioCoords 1 0 20 400
           = some (processFrame scenarioCoords 1 0 20 400)) :=
  ⟨by norm_num, no_range_validation scenarioCoords 1 0 20 400 (by norm_num)⟩

/-- C9: the FeatureExtractor never rejects a duplicate side label: for any
detection list, each side's resulting observation is exactly the pixel pair
of the LAST detection carrying that side label (last-write-wins), or absent
when the side never occurs. -/
theorem extractor_last_write_wins (w h : ℕ) (ds : List Detection) (s : Side) :
    sideObs (extractCoords w h ds) s =
      match (ds.filter (fun d => d.side == s)).getLast? with
      | some d => (some (handPixels w h d).1, some (handPixels w h d).2)
      | none => ((none : Option Point), (none : Option Point)) := by
  rw [extractCoords, extract_foldl_aux w h ds s emptyCoords]
  cases (ds.filter (fun d => d.side == s)).getLast? with
  | none => exact sideObs_empty s
  | some d => rfl

/-- C10: at the FeatureExtractor output, each side's thumb and index pixels
are either both present or both absent — a detected hand always writes both
fingertips together. -/
theorem extractor_both_or_neither (w h : ℕ) (ds : List Detection) (s : Side) :
    (sideObs (extractCoords w h ds) s).1.isSome
      = (sideObs (extractCoords w h ds) s).2.isSome := by
  rw [extractCoords, extract_foldl_aux w h ds s emptyCoords]
  cases (ds.filter (fun d => d.side == s)).getLast? with
  | none => rw [sideObs_empty]
  | some d => rfl

end Gesture
